import Mathlib

/-!
Shallow embedding of `src/src/ShaderUp.ts` (the `ShaderUp` class of the
shaderup repository).  The host graphics API (WebGL), the DOM and the
animation-frame scheduler are modelled as an explicit environment
(`ShaderUp.Env`) plus a trace of emitted host commands (`ShaderUp.Cmd`).
JavaScript `throw new Error(msg)` sites are tagged with the spec's error
taxonomy (`ShaderUp.SError`) according to the construction site that
raises them.  JS numbers that the code only ever treats integrally are
modelled as `Int`/`Nat`; JS truthiness of numbers (`!x`) is modelled
explicitly (`falsyNum`, `truthyId`).  GL object handles carry no
information the code observes, so allocations are recorded in the trace
and handles are small fixed naturals.
-/

namespace ShaderUp

/-- `export type UniformType = 'float' | 'vec2' | 'vec3' | 'vec4' | 'int' | 'sampler2D'` -/
inductive UniformType where
  | float
  | vec2
  | vec3
  | vec4
  | int
  | sampler2D
deriving DecidableEq

/-- `export type RenderMode = 'fullscreen' | 'instanced'` -/
inductive RenderMode where
  | fullscreen
  | instanced
deriving DecidableEq

/-- `interface AttributeOptions`.  The TS `type` field defaults to `'FLOAT'`
and is never read by the code (`const glType = gl.FLOAT;`), so it is not
modelled. -/
structure AttributeOptions where
  size : Nat
  instanced : Bool := false
deriving DecidableEq

/-- A JavaScript value stored in the public `uniforms` value-bag. -/
inductive UValue where
  | num (x : Int)
  | arr (xs : List Int)
  | null
deriving DecidableEq

/-- `interface UniformInfo { location; type; textureUnit? }` -/
structure UniformInfo where
  location : Nat
  type : UniformType
  textureUnit : Option Nat := none
deriving DecidableEq

/-- The drawable surface: logical (CSS) size and backing-store size.
The drawing buffer of the context tracks the backing-store size. -/
structure Canvas where
  clientWidth : Nat
  clientHeight : Nat
  width : Nat
  height : Nat
deriving DecidableEq

/-- `interface ShaderUpOptions` (the `onResize` callback is modelled as a
presence flag; its invocations are recorded in the trace). -/
structure ShaderUpOptions where
  renderMode : Option RenderMode := none
  canvasId : Option String := none
  canvas : Option Canvas := none
  fragmentShader : String
  vertexShader : Option String := none
  uniforms : Option (List (String × UniformType)) := none
  attributes : Option (List (String × AttributeOptions)) := none
  numInstances : Option Int := none
  onResize : Bool := false
deriving DecidableEq

/-- The spec's error taxonomy for the `throw new Error(msg)` sites. -/
inductive SError where
  | configurationError (msg : String)
  | resourceError (msg : String)
  | compileError (msg : String)
  | linkError (msg : String)
deriving DecidableEq

/-- Host commands emitted by the embedded code, in program order. -/
inductive Cmd where
  | addEventListener (ev : String)
  | removeEventListener (ev : String)
  | createShader
  | deleteShader
  | createProgram
  | deleteProgram
  | useProgram
  | createBuffer
  | bindBuffer
  | bufferData (len : Nat)
  | createTexture
  | deleteTexture
  | deleteBuffer
  | activeTexture (unit : Nat)
  | bindTexture
  | texParameteri (pname : String)
  | texImage2D
  | enableVertexAttribArray (loc : Int)
  | vertexAttribPointer (loc : Int) (size : Nat) (stride : Nat) (offset : Nat)
  | vertexAttribDivisor (loc : Int)
  | viewport (x y w h : Nat)
  | uploadTime (loc : Nat) (ms : Nat)
  | uploadResolution (loc : Nat) (w h : Nat)
  | uniformUpload (loc : Nat) (ty : UniformType) (v : UValue)
  | drawArrays (first count : Nat)
  | drawArraysInstanced (first count : Nat) (instances : Int)
  | requestAnimationFrame (id : Nat)
  | cancelAnimationFrame (id : Nat)
  | observe
  | disconnect
  | warn (msg : String)
  | resizeCallback (w h : Nat)
deriving DecidableEq

/-- Host environment: context availability, shader compiler / linker
outcomes, name resolution against the linked program, DOM lookup. -/
structure Env where
  webgl2 : Bool
  webgl1 : Bool
  compileOk : String → Bool
  shaderLog : String → String
  linkOk : Bool
  linkLog : String
  uniformLoc : String → Option Nat
  attribLoc : String → Int
  getElementById : String → Option Canvas
  querySelector : Option Canvas

/-- Which context generation was acquired. -/
inductive CtxGen where
  | webgl2
  | webgl1
deriving DecidableEq

/-- The private state of a constructed `ShaderUp` instance. -/
structure ShaderUpState where
  renderMode : RenderMode
  numInstances : Int
  attributeOptions : Option (List (String × AttributeOptions))
  canvas : Canvas
  program : Option Nat
  animationFrameId : Option Nat
  resizeObserver : Bool
  isDestroyed : Bool
  uniformInfo : List (String × UniformInfo)
  uniforms : List (String × UValue)
  textures : List (Nat × Nat)
  instanceBuffer : Option Nat
  timeLocation : Option Nat
  resolutionLocation : Option Nat
  onResize : Bool
deriving DecidableEq

/-- JS falsiness of an optional number (`!options.numInstances`):
`undefined` and `0` are falsy. -/
def falsyNum : Option Int → Bool
  | none => true
  | some n => n == 0

/-- JS truthiness of `this.animationFrameId` (`null` and `0` are falsy). -/
def truthyId : Option Nat → Bool
  | none => false
  | some i => i != 0

/-- JS object / `Map` lookup on an insertion-ordered association list. -/
def lookupAssoc {α : Type} (k : String) : List (String × α) → Option α
  | [] => none
  | (k', v) :: rest => if k' = k then some v else lookupAssoc k rest

/-- JS object / `Map` keyed assignment on an insertion-ordered
association list: overwrite in place if present, else append. -/
def setAssoc {α : Type} (k : String) (v : α) : List (String × α) → List (String × α)
  | [] => [(k, v)]
  | (k', v') :: rest => if k' = k then (k, v) :: rest else (k', v') :: setAssoc k v rest

/-- `getDefaultUniformValue` (ShaderUp.ts lines 395-405). -/
def getDefaultUniformValue : UniformType → UValue
  | UniformType.float => UValue.num 0
  | UniformType.vec2 => UValue.arr [0, 0]
  | UniformType.vec3 => UValue.arr [0, 0, 0]
  | UniformType.vec4 => UValue.arr [0, 0, 0, 0]
  | UniformType.int => UValue.num 0
  | UniformType.sampler2D => UValue.null

/-- `getDefaultVertexShader` (ShaderUp.ts lines 407-444); `\x7b`/`\x7d`
encode the GLSL braces. -/
def getDefaultVertexShader : RenderMode → String
  | RenderMode.instanced =>
      "#version 300 es\n in vec2 a_quadVertex;\n in vec4 a_instanceRect;\n" ++
      " uniform vec2 u_resolution;\n out vec2 v_uv;\n void main() \x7b\n" ++
      " vec2 finalPos = a_instanceRect.xy + (a_quadVertex * a_instanceRect.zw);\n" ++
      " vec2 clipSpace = (finalPos / u_resolution) * 2.0 - 1.0;\n" ++
      " clipSpace.y *= -1.0;\n gl_Position = vec4(clipSpace, 0.0, 1.0);\n" ++
      " v_uv = a_quadVertex;\n \x7d\n"
  | RenderMode.fullscreen =>
      "attribute vec2 a_position;\n void main() \x7b\n" ++
      " gl_Position = vec4(a_position, 0.0, 1.0);\n \x7d\n"

/-- The warning emitted for a declared uniform that does not resolve. -/
def uniformWarnMsg (name : String) : String :=
  "[ShaderUp] Uniform \"" ++ name ++
    "\" not found in shader source (it may be unused and optimized out)."

/-- The warning emitted for a declared attribute that does not resolve. -/
def attribWarnMsg (name : String) : String :=
  "[ShaderUp] Attribute \"" ++ name ++ "\" not found in shader."

/-- `initFullscreenResources` (lines 217-229): full-screen triangle
buffer and the `a_position` attribute. -/
def initFullscreenResources (attribLoc : String → Int) : List Cmd :=
  [Cmd.createBuffer, Cmd.bindBuffer, Cmd.bufferData 6,
   Cmd.enableVertexAttribArray (attribLoc "a_position"),
   Cmd.vertexAttribPointer (attribLoc "a_position") 2 0 0]

/-- The stride computation of `initInstancedResources` (lines 250-255):
`stride += opts.size * 4` over every declared attribute. -/
def computeStride (attrs : List (String × AttributeOptions)) : Nat :=
  attrs.foldl (fun s a => s + a.2.size * 4) 0

/-- The attribute-pointer loop of `initInstancedResources`
(lines 257-276).  An unresolved name warns and `continue`s, which also
skips the `offset += opts.size * 4` increment. -/
def setupAttribs (attribLoc : String → Int) :
    List (String × AttributeOptions) → Nat → Nat → List Cmd
  | [], _, _ => []
  | (name, opts) :: rest, stride, offset =>
    let loc := attribLoc name
    if loc = -1 then
      Cmd.warn (attribWarnMsg name) :: setupAttribs attribLoc rest stride offset
    else
      Cmd.enableVertexAttribArray loc ::
      Cmd.vertexAttribPointer loc opts.size stride offset ::
      ((if opts.instanced then [Cmd.vertexAttribDivisor loc] else []) ++
        setupAttribs attribLoc rest stride (offset + opts.size * 4))

/-- `initInstancedResources` (lines 231-277): unit quad, instance
buffer, stride computation and attribute-pointer loop. -/
def initInstancedResources (attribLoc : String → Int)
    (attrs : List (String × AttributeOptions)) : List Cmd :=
  [Cmd.createBuffer, Cmd.bindBuffer, Cmd.bufferData 12,
   Cmd.enableVertexAttribArray (attribLoc "a_quadVertex"),
   Cmd.vertexAttribPointer (attribLoc "a_quadVertex") 2 0 0,
   Cmd.createBuffer, Cmd.bindBuffer] ++
  setupAttribs attribLoc attrs (computeStride attrs) 0

/-- The custom-uniform registration loop of `initResources`
(lines 193-211), threading the texture-unit counter, the
`uniformInfo` registry and the public `uniforms` value-bag.
Returns (registry, value-bag, emitted warnings). -/
def processUniforms (f : String → Option Nat) :
    List (String × UniformType) → Nat → List (String × UniformInfo) →
    List (String × UValue) →
    List (String × UniformInfo) × List (String × UValue) × List Cmd
  | [], _, reg, bag => (reg, bag, [])
  | (name, ty) :: rest, texCount, reg, bag =>
    match f name with
    | none =>
      let r := processUniforms f rest texCount reg bag
      (r.1, r.2.1, Cmd.warn (uniformWarnMsg name) :: r.2.2)
    | some loc =>
      let texUnit := if ty = UniformType.sampler2D then some texCount else none
      let texCount' := if ty = UniformType.sampler2D then texCount + 1 else texCount
      processUniforms f rest texCount'
        (setAssoc name { location := loc, type := ty, textureUnit := texUnit } reg)
        (setAssoc name (getDefaultUniformValue ty) bag)

/-- `handleResize` (lines 477-488).  The viewport is set to the
drawing-buffer size, which tracks the just-updated backing store. -/
def handleResize (c : Canvas) (hasCallback : Bool) : Canvas × List Cmd :=
  if c.clientWidth ≠ c.width ∨ c.clientHeight ≠ c.height then
    let c' := { c with width := c.clientWidth, height := c.clientHeight }
    (c', Cmd.viewport 0 0 c'.width c'.height ::
      (if hasCallback then [Cmd.resizeCallback c.clientWidth c.clientHeight] else []))
  else (c, [])

/-- Output of `initResources` on success. -/
structure InitOut where
  program : Nat
  timeLocation : Option Nat
  resolutionLocation : Option Nat
  uniformInfo : List (String × UniformInfo)
  uniformsBag : List (String × UValue)
  instanceBuffer : Option Nat
  canvas : Canvas
deriving DecidableEq

/-- `initResources` (lines 169-215).  On a vertex-stage compile failure
only the vertex shader object exists and is deleted before the throw; on
a fragment-stage failure the vertex shader object is leaked; on a link
failure both shader objects are leaked (the source deletes them only
after `createProgram` returns). -/
def initResources (env : Env) (opts : ShaderUpOptions) (renderMode : RenderMode)
    (attrOpts : Option (List (String × AttributeOptions))) (canvas : Canvas) :
    List Cmd × Except SError InitOut :=
  let vsSource := opts.vertexShader.getD (getDefaultVertexShader renderMode)
  if env.compileOk vsSource = false then
    ([Cmd.createShader, Cmd.deleteShader],
     Except.error (SError.compileError (env.shaderLog vsSource)))
  else if env.compileOk opts.fragmentShader = false then
    ([Cmd.createShader, Cmd.createShader, Cmd.deleteShader],
     Except.error (SError.compileError (env.shaderLog opts.fragmentShader)))
  else if env.linkOk = false then
    ([Cmd.createShader, Cmd.createShader, Cmd.createProgram, Cmd.deleteProgram],
     Except.error (SError.linkError env.linkLog))
  else
    let modeCmds :=
      match renderMode, attrOpts with
      | RenderMode.fullscreen, _ => initFullscreenResources env.attribLoc
      | RenderMode.instanced, some attrs => initInstancedResources env.attribLoc attrs
      | RenderMode.instanced, none => []
    let pu := processUniforms env.uniformLoc (opts.uniforms.getD []) 0 [] []
    let hr := handleResize canvas opts.onResize
    ([Cmd.createShader, Cmd.createShader, Cmd.createProgram,
      Cmd.deleteShader, Cmd.deleteShader] ++ modeCmds ++ pu.2.2 ++ hr.2,
     Except.ok
       { program := 0,
         timeLocation := env.uniformLoc "u_time",
         resolutionLocation := env.uniformLoc "u_resolution",
         uniformInfo := pu.1,
         uniformsBag := pu.2.1,
         instanceBuffer :=
           match renderMode, attrOpts with
           | RenderMode.instanced, some _ => some 0
           | _, _ => none,
         canvas := hr.1 })

/-- Canvas resolution (constructor step 1, lines 115-126). -/
def resolveCanvas (env : Env) (opts : ShaderUpOptions) : Except SError Canvas :=
  match opts.canvas with
  | some c => Except.ok c
  | none =>
    match opts.canvasId with
    | some cid =>
      match env.getElementById cid with
      | some c => Except.ok c
      | none => Except.error (SError.resourceError
          ("[ShaderUp] Canvas #" ++ cid ++ " not found."))
    | none =>
      match env.querySelector with
      | some c => Except.ok c
      | none => Except.error (SError.resourceError
          "[ShaderUp] No <canvas> element found on page.")

/-- Context acquisition (constructor step 2, lines 128-147): instanced
mode requires WebGL2; fullscreen mode falls back to WebGL1. -/
def acquireContext (env : Env) (renderMode : RenderMode) : Except SError CtxGen :=
  match renderMode with
  | RenderMode.instanced =>
    if env.webgl2 = true then Except.ok CtxGen.webgl2
    else Except.error (SError.resourceError
      "[ShaderUp] WebGL2 is required for 'instanced' renderMode.")
  | RenderMode.fullscreen =>
    if env.webgl2 = true then Except.ok CtxGen.webgl2
    else if env.webgl1 = true then Except.ok CtxGen.webgl1
    else Except.error (SError.resourceError
      "[ShaderUp] WebGL not supported in this browser.")

/-- The constructor (lines 98-163).  Returns the trace of host commands
emitted before returning or throwing, and either the spec-taxonomy error
or the constructed instance state. -/
def construct (env : Env) (opts : ShaderUpOptions) :
    List Cmd × Except SError ShaderUpState :=
  let renderMode := opts.renderMode.getD RenderMode.fullscreen
  if renderMode = RenderMode.instanced ∧ falsyNum opts.numInstances = true then
    ([], Except.error (SError.configurationError
      "[ShaderUp] 'numInstances' is required for 'instanced' renderMode."))
  else if renderMode = RenderMode.instanced ∧ opts.attributes = none then
    ([], Except.error (SError.configurationError
      "[ShaderUp] 'attributes' are required for 'instanced' renderMode."))
  else
    let numInstances : Int :=
      if renderMode = RenderMode.instanced then opts.numInstances.getD 0 else 0
    let attrOpts :=
      if renderMode = RenderMode.instanced then opts.attributes else none
    match resolveCanvas env opts with
    | Except.error e => ([], Except.error e)
    | Except.ok canvas0 =>
      match acquireContext env renderMode with
      | Except.error e => ([], Except.error e)
      | Except.ok _gen =>
        let evCmds := [Cmd.addEventListener "webglcontextlost",
                       Cmd.addEventListener "webglcontextrestored"]
        match initResources env opts renderMode attrOpts canvas0 with
        | (cs, Except.error e) => (evCmds ++ cs, Except.error e)
        | (cs, Except.ok out) =>
          (evCmds ++ cs ++ [Cmd.observe],
           Except.ok
             { renderMode := renderMode,
               numInstances := numInstances,
               attributeOptions := attrOpts,
               canvas := out.canvas,
               program := some out.program,
               animationFrameId := none,
               resizeObserver := true,
               isDestroyed := false,
               uniformInfo := out.uniformInfo,
               uniforms := out.uniformsBag,
               textures := [],
               instanceBuffer := out.instanceBuffer,
               timeLocation := out.timeLocation,
               resolutionLocation := out.resolutionLocation,
               onResize := opts.onResize })

/-- `Map` lookup keyed by texture unit (`this.textures`). -/
def lookupNat {α : Type} (k : Nat) : List (Nat × α) → Option α
  | [] => none
  | (k', v) :: rest => if k' = k then some v else lookupNat k rest

/-- `setData` (lines 283-289): no-op unless in instanced mode and not
disposed; otherwise re-binds the instance buffer and bulk-replaces its
content.  Only the element count of the `Float32Array` is observable. -/
def setData (s : ShaderUpState) (dataLen : Nat) : ShaderUpState × List Cmd :=
  if s.renderMode ≠ RenderMode.instanced ∨ s.isDestroyed = true then (s, [])
  else (s, [Cmd.bindBuffer, Cmd.bufferData dataLen])

/-- The fixed texture parameters of `setTexture` (lines 319-322). -/
def texParamCmds : List Cmd :=
  [Cmd.texParameteri "TEXTURE_WRAP_S", Cmd.texParameteri "TEXTURE_WRAP_T",
   Cmd.texParameteri "TEXTURE_MIN_FILTER", Cmd.texParameteri "TEXTURE_MAG_FILTER"]

/-- `setTexture` (lines 297-325); the image payload is not modelled. -/
def setTexture (s : ShaderUpState) (name : String) : ShaderUpState × List Cmd :=
  if s.isDestroyed = true then (s, [])
  else
    match lookupAssoc name s.uniformInfo with
    | none =>
      (s, [Cmd.warn ("[ShaderUp] Warning: \"" ++ name ++
        "\" is not a registered sampler2D uniform.")])
    | some info =>
      if info.type ≠ UniformType.sampler2D ∨ info.textureUnit = none then
        (s, [Cmd.warn ("[ShaderUp] Warning: \"" ++ name ++
          "\" is not a registered sampler2D uniform.")])
      else
        match info.textureUnit with
        | none => (s, [])
        | some u =>
          let create :=
            match lookupNat u s.textures with
            | some _ => (s, ([] : List Cmd))
            | none => ({ s with textures := s.textures ++ [(u, u)] }, [Cmd.createTexture])
          (create.1, create.2 ++ [Cmd.activeTexture u, Cmd.bindTexture] ++
            texParamCmds ++ [Cmd.texImage2D])

/-- `start` (lines 330-334). -/
def start (s : ShaderUpState) (newId : Nat) : ShaderUpState × List Cmd :=
  if truthyId s.animationFrameId = false ∧ s.isDestroyed = false then
    ({ s with animationFrameId := some newId }, [Cmd.requestAnimationFrame newId])
  else (s, [])

/-- `stop` (lines 339-344). -/
def stop (s : ShaderUpState) : ShaderUpState × List Cmd :=
  match s.animationFrameId with
  | some i =>
    if i ≠ 0 then ({ s with animationFrameId := none }, [Cmd.cancelAnimationFrame i])
    else (s, [])
  | none => (s, [])

/-- `dispose` (lines 350-379). -/
def dispose (s : ShaderUpState) : ShaderUpState × List Cmd :=
  let p1 := stop s
  let s1 := { p1.1 with isDestroyed := true }
  let p2 :=
    if s1.resizeObserver = true then ({ s1 with resizeObserver := false }, [Cmd.disconnect])
    else (s1, ([] : List Cmd))
  let s2 := p2.1
  let removeCmds := [Cmd.removeEventListener "webglcontextlost",
                     Cmd.removeEventListener "webglcontextrestored"]
  let texCmds := s2.textures.map (fun _ => Cmd.deleteTexture)
  let s3 := { s2 with textures := [] }
  let p4 :=
    match s3.instanceBuffer with
    | some _ => ({ s3 with instanceBuffer := none }, [Cmd.deleteBuffer])
    | none => (s3, ([] : List Cmd))
  let s4 := p4.1
  let p5 :=
    match s4.program with
    | some _ => ({ s4 with program := none }, [Cmd.deleteProgram])
    | none => (s4, ([] : List Cmd))
  (p5.1, p1.2 ++ p2.2 ++ removeCmds ++ texCmds ++ p4.2 ++ p5.2)

/-- The custom-uniform upload loop of `render` (lines 500-517): iterate
the registry, skip `null`/`undefined` bag values, dispatch on the
declared type (a sampler uploads its texture-unit index). -/
def customUploadCmds (bag : List (String × UValue)) :
    List (String × UniformInfo) → List Cmd
  | [] => []
  | (name, info) :: rest =>
    match lookupAssoc name bag with
    | none => customUploadCmds bag rest
    | some UValue.null => customUploadCmds bag rest
    | some v =>
      match info.type, info.textureUnit with
      | UniformType.sampler2D, some u =>
        Cmd.uniformUpload info.location UniformType.sampler2D (UValue.num (Int.ofNat u)) ::
          customUploadCmds bag rest
      | UniformType.sampler2D, none => customUploadCmds bag rest
      | t, _ => Cmd.uniformUpload info.location t v :: customUploadCmds bag rest

/-- `render` (lines 490-529).  The time value is kept in milliseconds;
the host's `*0.001` float scaling is not observable to any claim. -/
def render (s : ShaderUpState) (timeMs : Nat) (newId : Nat) :
    ShaderUpState × List Cmd :=
  if s.isDestroyed = true ∨ s.program = none then (s, [])
  else
    let timeCmds :=
      match s.timeLocation with
      | some l => [Cmd.uploadTime l timeMs]
      | none => []
    let resCmds :=
      match s.resolutionLocation with
      | some l => [Cmd.uploadResolution l s.canvas.width s.canvas.height]
      | none => []
    let drawCmd :=
      match s.renderMode with
      | RenderMode.fullscreen => Cmd.drawArrays 0 3
      | RenderMode.instanced => Cmd.drawArraysInstanced 0 6 s.numInstances
    ({ s with animationFrameId := some newId },
     Cmd.useProgram :: (timeCmds ++ resCmds ++
       customUploadCmds s.uniforms s.uniformInfo ++
       [drawCmd, Cmd.requestAnimationFrame newId]))

/-- Is this command a draw call? -/
def isDraw : Cmd → Bool
  | Cmd.drawArrays _ _ => true
  | Cmd.drawArraysInstanced _ _ _ => true
  | _ => false

/-- The host scheduler's reaction to one emitted command: track the set
of pending animation-frame callbacks. -/
def hostStep (p : List Nat) : Cmd → List Nat
  | Cmd.requestAnimationFrame i => p ++ [i]
  | Cmd.cancelAnimationFrame i => p.erase i
  | _ => p

/-- Fold the host scheduler over a trace. -/
def hostApply (p : List Nat) : List Cmd → List Nat
  | [] => p
  | c :: rest => hostApply (hostStep p c) rest

/-- External events driving a constructed instance: the public calls and
the host firing a scheduled animation-frame callback. -/
inductive Event where
  | start
  | stop
  | dispose
  | tick
  | contextLost
deriving DecidableEq

/-- Instance state coupled with the host scheduler: pending callback
ids, the id counter (browser ids start at 1), and a ghost counter of
executed frame callbacks. -/
structure Sys where
  sh : ShaderUpState
  pending : List Nat
  nextId : Nat
  frames : Nat
deriving DecidableEq

/-- One step of the instance/host system.  `tick` fires the oldest
pending callback (the host removes it from the queue before invoking
`boundRender`). -/
def stepSys (w : Sys) : Event → Sys
  | Event.start =>
    let r := start w.sh w.nextId
    { w with sh := r.1, pending := hostApply w.pending r.2, nextId := w.nextId + 1 }
  | Event.stop =>
    let r := stop w.sh
    { w with sh := r.1, pending := hostApply w.pending r.2 }
  | Event.dispose =>
    let r := dispose w.sh
    { w with sh := r.1, pending := hostApply w.pending r.2 }
  | Event.contextLost =>
    let r := stop w.sh
    { w with sh := r.1, pending := hostApply w.pending r.2 }
  | Event.tick =>
    match w.pending with
    | [] => w
    | _ :: rest =>
      let r := render w.sh w.frames w.nextId
      { sh := r.1, pending := hostApply rest r.2,
        nextId := w.nextId + 1, frames := w.frames + 1 }

/-- The system right after a successful construction. -/
def initSys (s0 : ShaderUpState) : Sys :=
  { sh := s0, pending := [], nextId := 1, frames := 0 }

/-- Run a sequence of events. -/
def runSys (w : Sys) (evs : List Event) : Sys :=
  evs.foldl stepSys w

/-- Iterate scheduler ticks. -/
def iterTicks : Nat → Sys → Sys
  | 0, w => w
  | n + 1, w => iterTicks n (stepSys w Event.tick)

/-- Coupling invariant between the instance's `animationFrameId` and the
host's pending-callback queue. -/
def SysInv (w : Sys) : Prop :=
  (∀ i, w.sh.animationFrameId = some i → 1 ≤ i ∧ w.pending = [i]) ∧
  (w.sh.animationFrameId = none → w.pending = []) ∧
  1 ≤ w.nextId ∧
  (w.sh.isDestroyed = true → w.sh.animationFrameId = none) ∧
  (w.sh.isDestroyed = false → w.sh.program.isSome = true)

/-- Concrete canvas used by witnesses: logical size 400×300, backing
store still 800×600. -/
def canvasW : Canvas :=
  { clientWidth := 400, clientHeight := 300, width := 800, height := 600 }

/-- Concrete host environment used by witnesses: WebGL2 available,
everything compiles and links, `u_missing` does not resolve, every
attribute resolves to location 0. -/
def envW : Env :=
  { webgl2 := true, webgl1 := true,
    compileOk := fun _ => true, shaderLog := fun _ => "",
    linkOk := true, linkLog := "",
    uniformLoc := fun n => if n = "u_missing" then none else some 5,
    attribLoc := fun _ => 0,
    getElementById := fun _ => none, querySelector := none }

/-- Concrete instanced-mode options used by witnesses. -/
def optsW : ShaderUpOptions :=
  { renderMode := some RenderMode.instanced,
    canvas := some canvasW,
    fragmentShader := "void main() \x7b \x7d",
    uniforms := some [("u_speed", UniformType.float), ("u_missing", UniformType.vec2)],
    attributes := some [("a_instanceRect", { size := 4, instanced := true })],
    numInstances := some 3,
    onResize := true }

/-- A throw-away state used only as the impossible fallback of
`okStateW`. -/
def fallbackState : ShaderUpState :=
  { renderMode := RenderMode.fullscreen, numInstances := 0,
    attributeOptions := none, canvas := canvasW, program := none,
    animationFrameId := none, resizeObserver := false, isDestroyed := true,
    uniformInfo := [], uniforms := [], textures := [], instanceBuffer := none,
    timeLocation := none, resolutionLocation := none, onResize := false }

/-- The state produced by constructing with `envW`/`optsW`. -/
def okStateW : ShaderUpState :=
  match (construct envW optsW).2 with
  | Except.ok s => s
  | Except.error _ => fallbackState

/-- Two-attribute layout whose first attribute will fail to resolve. -/
def cexAttrs : List (String × AttributeOptions) :=
  [("a", { size := 4, instanced := false }), ("b", { size := 2, instanced := false })]

/-- Attribute resolution in which `a` is missing from the program. -/
def cexLoc (n : String) : Int :=
  if n = "b" then 0 else -1

/-- Attribute resolution in which both attributes resolve. -/
def cexLocAll (n : String) : Int :=
  if n = "b" then 0 else if n = "a" then 1 else -1

/-- Does construction fail with the spec's ConfigurationError? -/
def isConfigError : Except SError ShaderUpState → Bool
  | Except.error (SError.configurationError _) => true
  | _ => false

/-- The uniform declarations of `optsW`, used by witnesses. -/
def uniformsW : List (String × UniformType) :=
  [("u_speed", UniformType.float), ("u_missing", UniformType.vec2)]

theorem lookupAssoc_setAssoc_self {α : Type} (k : String) (v : α)
    (l : List (String × α)) : lookupAssoc k (setAssoc k v l) = some v := by
  induction l with
  | nil => simp [setAssoc, lookupAssoc]
  | cons p rest ih =>
    by_cases h : p.1 = k
    · simp [setAssoc, lookupAssoc, h]
    · obtain ⟨k', v'⟩ := p
      simp only at h
      simp [setAssoc, lookupAssoc, h, ih]

theorem lookupAssoc_setAssoc_ne {α : Type} (k k' : String) (v : α)
    (l : List (String × α)) (h : k' ≠ k) :
    lookupAssoc k (setAssoc k' v l) = lookupAssoc k l := by
  induction l with
  | nil => simp [setAssoc, lookupAssoc, h]
  | cons p rest ih =>
    obtain ⟨k0, v0⟩ := p
    by_cases h0 : k0 = k'
    · subst h0
      simp [setAssoc, lookupAssoc, h]
    · simp only [setAssoc, if_neg h0]
      by_cases h1 : k0 = k
      · simp [lookupAssoc, h1]
      · simp [lookupAssoc, h1, ih]

theorem lookupAssoc_eq_none_mem {α : Type} (k : String) (l : List (String × α))
    (h : lookupAssoc k l = none) : ∀ p ∈ l, p.1 ≠ k := by
  induction l with
  | nil => simp
  | cons p rest ih =>
    obtain ⟨k', v'⟩ := p
    by_cases h0 : k' = k
    · simp [lookupAssoc, h0] at h
    · simp only [lookupAssoc, if_neg h0] at h
      intro q hq
      rcases List.mem_cons.mp hq with rfl | hq'
      · exact h0
      · exact ih h q hq'

theorem foldl_size_mul (l : List (String × AttributeOptions)) (n : Nat) :
    l.foldl (fun s a => s + a.2.size * 4) n =
      n + (l.map (fun a => a.2.size * 4)).sum := by
  induction l generalizing n with
  | nil => simp
  | cons a rest ih =>
    simp only [List.foldl_cons, List.map_cons, List.sum_cons]
    rw [ih]
    omega

theorem setupAttribs_stride (f : String → Int) (l : List (String × AttributeOptions))
    (S offset : Nat) : ∀ loc size stride o,
    Cmd.vertexAttribPointer loc size stride o ∈ setupAttribs f l S offset →
    stride = S := by
  induction l generalizing offset with
  | nil => simp [setupAttribs]
  | cons a rest ih =>
    intro loc size stride o hmem
    obtain ⟨name, opts⟩ := a
    simp only [setupAttribs] at hmem
    by_cases hl : f name = -1
    · simp only [if_pos hl, List.mem_cons] at hmem
      rcases hmem with h | h
      · exact absurd h (by simp)
      · exact ih _ loc size stride o h
    · simp only [if_neg hl, List.mem_cons] at hmem
      rcases hmem with h | h | h
      · exact absurd h (by simp)
      · exact (Cmd.vertexAttribPointer.injEq _ _ _ _ _ _ _ _).mp h |>.2.2.1
      · rcases List.mem_append.mp h with h' | h'
        · rcases opts.instanced with _ | _ <;> simp_all
        · exact ih _ loc size stride o h'

theorem setupAttribs_mem_resolved (f : String → Int) (a : String × AttributeOptions)
    (hres : ¬ f a.1 = -1) :
    ∀ (pre post : List (String × AttributeOptions)) (stride offset : Nat),
      Cmd.vertexAttribPointer (f a.1) a.2.size stride
          (offset + ((pre.filter (fun x => f x.1 != -1)).map
            (fun x => x.2.size * 4)).sum) ∈
        setupAttribs f (pre ++ a :: post) stride offset := by
  intro pre
  induction pre with
  | nil =>
    intro post stride offset
    obtain ⟨name, opts⟩ := a
    simp only [List.nil_append, setupAttribs, List.filter_nil, List.map_nil,
      List.sum_nil, Nat.add_zero]
    simp only at hres
    rw [if_neg hres]
    exact List.mem_cons.mpr (Or.inr (List.mem_cons.mpr (Or.inl rfl)))
  | cons x pre ih =>
    intro post stride offset
    obtain ⟨xname, xopts⟩ := x
    simp only [List.cons_append, setupAttribs]
    by_cases hx : f xname = -1
    · rw [if_pos hx]
      have hfilter : ((xname, xopts) :: pre).filter (fun x => f x.1 != -1) =
          pre.filter (fun x => f x.1 != -1) := by
        simp [List.filter_cons, hx]
      rw [hfilter]
      exact List.mem_cons.mpr (Or.inr (ih post stride offset))
    · rw [if_neg hx]
      have hfilter : ((xname, xopts) :: pre).filter (fun x => f x.1 != -1) =
          (xname, xopts) :: pre.filter (fun x => f x.1 != -1) := by
        simp [List.filter_cons, hx]
      rw [hfilter]
      simp only [List.map_cons, List.sum_cons]
      have harith : offset + (xopts.size * 4 +
          ((pre.filter (fun x => f x.1 != -1)).map (fun x => x.2.size * 4)).sum) =
          (offset + xopts.size * 4) +
          ((pre.filter (fun x => f x.1 != -1)).map (fun x => x.2.size * 4)).sum := by
        omega
      rw [harith]
      refine List.mem_cons.mpr (Or.inr (List.mem_cons.mpr (Or.inr ?_)))
      exact List.mem_append.mpr (Or.inr (ih post stride (offset + xopts.size * 4)))

theorem processUniforms_bag_not_mem (f : String → Option Nat)
    (decls : List (String × UniformType)) (name : String)
    (h : name ∉ decls.map Prod.fst) :
    ∀ (tc : Nat) (reg : List (String × UniformInfo)) (bag : List (String × UValue)),
      lookupAssoc name (processUniforms f decls tc reg bag).2.1 = lookupAssoc name bag := by
  induction decls with
  | nil => intro tc reg bag; simp [processUniforms]
  | cons d rest ih =>
    intro tc reg bag
    obtain ⟨n, ty⟩ := d
    simp only [List.map_cons, List.mem_cons, not_or] at h
    obtain ⟨hne, hrest⟩ := h
    simp only [processUniforms]
    cases hf : f n with
    | none => exact ih hrest _ _ _
    | some loc =>
      rw [ih hrest]
      exact lookupAssoc_setAssoc_ne name n _ bag (fun he => hne he.symm)

theorem processUniforms_bag_seeded (f : String → Option Nat)
    (decls : List (String × UniformType)) (name : String) (ty : UniformType)
    (hnd : (decls.map Prod.fst).Nodup) (hmem : (name, ty) ∈ decls)
    (hres : (f name).isSome = true) :
    ∀ (tc : Nat) (reg : List (String × UniformInfo)) (bag : List (String × UValue)),
      lookupAssoc name (processUniforms f decls tc reg bag).2.1 =
        some (getDefaultUniformValue ty) := by
  induction decls with
  | nil => simp at hmem
  | cons d rest ih =>
    intro tc reg bag
    obtain ⟨n, ty'⟩ := d
    simp only [List.map_cons, List.nodup_cons] at hnd
    obtain ⟨hnin, hnd'⟩ := hnd
    rcases List.mem_cons.mp hmem with heq | hmem'
    · obtain ⟨rfl, rfl⟩ := Prod.mk.injEq .. ▸ heq
      have hnotin : name ∉ rest.map Prod.fst := by
        simpa using hnin
      simp only [processUniforms]
      cases hf : f name with
      | none => rw [hf] at hres; simp at hres
      | some loc =>
        rw [processUniforms_bag_not_mem f rest name hnotin]
        exact lookupAssoc_setAssoc_self name _ bag
    · have hne : n ≠ name := by
        intro he
        subst he
        exact hnin (List.mem_map.mpr ⟨(n, ty), hmem', rfl⟩)
      simp only [processUniforms]
      cases hf : f n with
      | none => exact ih hnd' hmem' _ _ _
      | some loc => exact ih hnd' hmem' _ _ _

theorem processUniforms_reg_unresolved (f : String → Option Nat)
    (decls : List (String × UniformType)) (name : String) (hres : f name = none) :
    ∀ (tc : Nat) (reg : List (String × UniformInfo)) (bag : List (String × UValue)),
      lookupAssoc name (processUniforms f decls tc reg bag).1 = lookupAssoc name reg := by
  induction decls with
  | nil => intro tc reg bag; simp [processUniforms]
  | cons d rest ih =>
    intro tc reg bag
    obtain ⟨n, ty⟩ := d
    simp only [processUniforms]
    cases hf : f n with
    | none => exact ih _ _ _
    | some loc =>
      have hne : n ≠ name := by
        intro he; subst he; rw [hres] at hf; exact Option.noConfusion hf
      rw [ih]
      exact lookupAssoc_setAssoc_ne name n _ reg hne

theorem processUniforms_bag_unresolved (f : String → Option Nat)
    (decls : List (String × UniformType)) (name : String) (hres : f name = none) :
    ∀ (tc : Nat) (reg : List (String × UniformInfo)) (bag : List (String × UValue)),
      lookupAssoc name (processUniforms f decls tc reg bag).2.1 = lookupAssoc name bag := by
  induction decls with
  | nil => intro tc reg bag; simp [processUniforms]
  | cons d rest ih =>
    intro tc reg bag
    obtain ⟨n, ty⟩ := d
    simp only [processUniforms]
    cases hf : f n with
    | none => exact ih _ _ _
    | some loc =>
      have hne : n ≠ name := by
        intro he; subst he; rw [hres] at hf; exact Option.noConfusion hf
      rw [ih]
      exact lookupAssoc_setAssoc_ne name n _ bag hne

theorem processUniforms_warn (f : String → Option Nat)
    (decls : List (String × UniformType)) (name : String) (ty : UniformType)
    (hres : f name = none) (hmem : (name, ty) ∈ decls) :
    ∀ (tc : Nat) (reg : List (String × UniformInfo)) (bag : List (String × UValue)),
      Cmd.warn (uniformWarnMsg name) ∈ (processUniforms f decls tc reg bag).2.2 := by
  induction decls with
  | nil => simp at hmem
  | cons d rest ih =>
    intro tc reg bag
    obtain ⟨n, ty'⟩ := d
    rcases List.mem_cons.mp hmem with heq | hmem'
    · obtain ⟨rfl, rfl⟩ := Prod.mk.injEq .. ▸ heq
      simp only [processUniforms, hres]
      exact List.mem_cons.mpr (Or.inl rfl)
    · simp only [processUniforms]
      cases hf : f n with
      | none => exact List.mem_cons.mpr (Or.inr (ih hmem' _ _ _))
      | some loc => exact ih hmem' _ _ _

theorem customUploadCmds_setAssoc_not_mem (bag : List (String × UValue))
    (reg : List (String × UniformInfo)) (name : String) (v : UValue)
    (h : lookupAssoc name reg = none) :
    customUploadCmds (setAssoc name v bag) reg = customUploadCmds bag reg := by
  induction reg with
  | nil => rfl
  | cons p rest ih =>
    obtain ⟨n, info⟩ := p
    by_cases hn : n = name
    · simp [lookupAssoc, hn] at h
    · simp only [lookupAssoc, if_neg hn] at h
      simp only [customUploadCmds]
      rw [lookupAssoc_setAssoc_ne n name v bag (fun he => hn he.symm), ih h]

theorem customUploadCmds_no_draw (bag : List (String × UValue))
    (reg : List (String × UniformInfo)) :
    (customUploadCmds bag reg).filter isDraw = [] := by
  induction reg with
  | nil => rfl
  | cons p rest ih =>
    obtain ⟨n, info⟩ := p
    simp only [customUploadCmds]
    cases hv : lookupAssoc n bag with
    | none => exact ih
    | some v =>
      cases v with
      | null => exact ih
      | num x =>
        cases hty : info.type <;> cases htu : info.textureUnit <;>
          simp [List.filter_cons, isDraw, ih]
      | arr xs =>
        cases hty : info.type <;> cases htu : info.textureUnit <;>
          simp [List.filter_cons, isDraw, ih]

theorem hostApply_customUploads (p : List Nat) (bag : List (String × UValue))
    (reg : List (String × UniformInfo)) :
    hostApply p (customUploadCmds bag reg) = p := by
  induction reg with
  | nil => rfl
  | cons q rest ih =>
    obtain ⟨n, info⟩ := q
    simp only [customUploadCmds]
    cases hv : lookupAssoc n bag with
    | none => exact ih
    | some v =>
      cases v with
      | null => exact ih
      | num x =>
        cases hty : info.type <;> cases htu : info.textureUnit <;>
          simpa [hostApply, hostStep] using ih
      | arr xs =>
        cases hty : info.type <;> cases htu : info.textureUnit <;>
          simpa [hostApply, hostStep] using ih

theorem hostApply_append (p : List Nat) (a b : List Cmd) :
    hostApply p (a ++ b) = hostApply (hostApply p a) b := by
  induction a generalizing p with
  | nil => rfl
  | cons c rest ih => simp [hostApply, ih]

theorem hostApply_deleteTextures {α : Type} (p : List Nat) (l : List α) :
    hostApply p (l.map (fun _ => Cmd.deleteTexture)) = p := by
  induction l with
  | nil => rfl
  | cons x rest ih => simpa [hostApply, hostStep] using ih

theorem stop_of_not_truthy (s : ShaderUpState)
    (h : truthyId s.animationFrameId = false) : stop s = (s, []) := by
  cases hafid : s.animationFrameId with
  | none => simp [stop, hafid]
  | some i =>
    rw [hafid] at h
    simp only [truthyId, bne_iff_ne, ne_eq, decide_not] at h
    have hi : i = 0 := by
      by_contra hne
      simp [hne] at h
    subst hi
    simp [stop, hafid]

theorem dispose_fst (s : ShaderUpState) :
    (dispose s).1 =
      { s with animationFrameId := (stop s).1.animationFrameId,
               isDestroyed := true, resizeObserver := false,
               textures := [], instanceBuffer := none, program := none } := by
  cases hafid : s.animationFrameId with
  | none =>
    simp only [dispose, stop, hafid]
    cases hro : s.resizeObserver <;> cases hib : s.instanceBuffer <;>
      cases hpr : s.program <;> simp_all
  | some i =>
    by_cases hi : i = 0
    · subst hi
      simp only [dispose, stop, hafid]
      cases hro : s.resizeObserver <;> cases hib : s.instanceBuffer <;>
        cases hpr : s.program <;> simp_all
    · simp only [dispose, stop, hafid, if_pos hi]
      cases hro : s.resizeObserver <;> cases hib : s.instanceBuffer <;>
        cases hpr : s.program <;> simp_all

theorem truthyId_stop_fst (s : ShaderUpState) :
    truthyId (stop s).1.animationFrameId = false := by
  cases hafid : s.animationFrameId with
  | none => simp [stop, hafid, truthyId]
  | some i =>
    by_cases hi : i = 0
    · subst hi; simp [stop, hafid, truthyId]
    · simp [stop, hafid, hi, truthyId]

theorem render_fst (s : ShaderUpState) (timeMs newId : Nat) :
    (render s timeMs newId).1 =
      if s.isDestroyed = true ∨ s.program = none then s
      else { s with animationFrameId := some newId } := by
  simp only [render]
  split <;> rfl

theorem hostApply_render (p : List Nat) (s : ShaderUpState) (timeMs newId : Nat) :
    hostApply p (render s timeMs newId).2 =
      if s.isDestroyed = true ∨ s.program = none then p else p ++ [newId] := by
  simp only [render]
  split
  · rfl
  · cases htl : s.timeLocation <;> cases hrl : s.resolutionLocation <;>
      cases hrm : s.renderMode <;>
      simp [hostApply, hostStep, hostApply_append, hostApply_customUploads]

theorem hostApply_stop (p : List Nat) (s : ShaderUpState) :
    hostApply p (stop s).2 =
      match s.animationFrameId with
      | some i => if i ≠ 0 then p.erase i else p
      | none => p := by
  cases hafid : s.animationFrameId with
  | none => simp [stop, hafid, hostApply]
  | some i =>
    by_cases hi : i = 0
    · subst hi; simp [stop, hafid, hostApply]
    · simp [stop, hafid, hi, hostApply, hostStep]

theorem hostApply_replicate (p : List Nat) (n : Nat) :
    hostApply p (List.replicate n Cmd.deleteTexture) = p := by
  induction n with
  | zero => rfl
  | succ m ih => simpa [List.replicate, hostApply, hostStep] using ih

theorem hostApply_dispose (p : List Nat) (s : ShaderUpState) :
    hostApply p (dispose s).2 = hostApply p (stop s).2 := by
  cases hafid : s.animationFrameId with
  | none =>
    simp only [dispose, stop, hafid]
    cases hro : s.resizeObserver <;> cases hib : s.instanceBuffer <;>
      cases hpr : s.program <;>
      simp_all [hostApply_append, hostApply, hostStep, hostApply_replicate]
  | some i =>
    by_cases hi : i = 0
    · subst hi
      simp only [dispose, stop, hafid]
      cases hro : s.resizeObserver <;> cases hib : s.instanceBuffer <;>
        cases hpr : s.program <;>
        simp_all [hostApply_append, hostApply, hostStep, hostApply_replicate]
    · simp only [dispose, stop, hafid, if_pos hi]
      cases hro : s.resizeObserver <;> cases hib : s.instanceBuffer <;>
        cases hpr : s.program <;>
        simp_all [hostApply_append, hostApply, hostStep, hostApply_replicate]

theorem falsyNum_false (o : Option Int) (h : falsyNum o = false) :
    o = some (o.getD 0) := by
  cases o with
  | none => simp [falsyNum] at h
  | some n => simp

theorem construct_ok (env : Env) (opts : ShaderUpOptions) (tr : List Cmd)
    (s : ShaderUpState) (h : construct env opts = (tr, Except.ok s)) :
    s.animationFrameId = none ∧ s.isDestroyed = false ∧ s.program.isSome = true ∧
    s.renderMode = opts.renderMode.getD RenderMode.fullscreen ∧
    (opts.renderMode.getD RenderMode.fullscreen = RenderMode.instanced →
      opts.numInstances = some s.numInstances) := by
  simp only [construct] at h
  split at h
  · simp at h
  · split at h
    · simp at h
    · rename_i hc1 hc2
      split at h
      · simp at h
      · split at h
        · simp at h
        · split at h
          · simp at h
          · rename_i cs out heq
            obtain ⟨htr, hs⟩ := Prod.mk.injEq .. ▸ h
            have hs' := Except.ok.injEq .. ▸ hs
            subst hs'
            refine ⟨rfl, rfl, rfl, rfl, fun hmode => ?_⟩
            have hnf : falsyNum opts.numInstances = false := by
              by_contra hne
              exact hc1 ⟨hmode, by revert hne; cases falsyNum opts.numInstances <;> simp⟩
            simp only [hmode, if_pos rfl]
            exact falsyNum_false opts.numInstances hnf

theorem not_truthy_of_inv (w : Sys) (h1 : ∀ i, w.sh.animationFrameId = some i →
    1 ≤ i ∧ w.pending = [i]) (h : truthyId w.sh.animationFrameId = false) :
    w.sh.animationFrameId = none := by
  cases hafid : w.sh.animationFrameId with
  | none => rfl
  | some i =>
    rw [hafid] at h
    simp only [truthyId, bne_iff_ne, ne_eq, decide_not] at h
    have hi : i = 0 := by
      by_contra hne
      simp [hne] at h
    obtain ⟨hle, _⟩ := h1 i hafid
    omega

theorem sysInv_step (w : Sys) (e : Event) (hw : SysInv w) : SysInv (stepSys w e) := by
  obtain ⟨h1, h2, h3, h4, h5⟩ := hw
  cases e with
  | start =>
    simp only [stepSys, start]
    by_cases hc : truthyId w.sh.animationFrameId = false ∧ w.sh.isDestroyed = false
    · have hafid : w.sh.animationFrameId = none := not_truthy_of_inv w h1 hc.1
      have hpend : w.pending = [] := h2 hafid
      rw [if_pos hc]
      refine ⟨?_, ?_, ?_, ?_, ?_⟩
      · intro i hi
        simp only [Option.some.injEq] at hi
        subst hi
        exact ⟨h3, by simp [hpend, hostApply, hostStep]⟩
      · intro hnone
        simp at hnone
      · exact Nat.le_succ_of_le h3
      · intro hdes
        simp only at hdes
        rw [hc.2] at hdes
        exact Bool.noConfusion hdes
      · intro _
        exact h5 hc.2
    · rw [if_neg hc]
      exact ⟨h1, fun hn => by simpa [hostApply] using h2 hn, Nat.le_succ_of_le h3, h4, h5⟩
  | stop =>
    simp only [stepSys]
    cases hafid : w.sh.animationFrameId with
    | none =>
      simp only [stop, hafid]
      exact ⟨fun i hi => absurd hi (by simp [hafid]),
        fun _ => by simpa [hostApply] using h2 hafid, h3, fun _ => hafid, h5⟩
    | some i =>
      obtain ⟨hle, hpend⟩ := h1 i hafid
      have hi0 : i ≠ 0 := by omega
      simp only [stop, hafid, if_pos hi0]
      refine ⟨?_, ?_, h3, ?_, ?_⟩
      · intro j hj
        simp at hj
      · intro _
        simp [hpend, hostApply, hostStep]
      · intro _
        rfl
      · intro hdes
        exact h5 hdes
  | dispose =>
    simp only [stepSys]
    have hpend' : hostApply w.pending (dispose w.sh).2 = [] := by
      rw [hostApply_dispose, hostApply_stop]
      cases hafid : w.sh.animationFrameId with
      | none => exact h2 hafid
      | some i =>
        obtain ⟨hle, hpend⟩ := h1 i hafid
        have hi0 : i ≠ 0 := by omega
        simp [hi0, hpend]
    have hafid' : (dispose w.sh).1.animationFrameId = none := by
      rw [dispose_fst]
      simp only
      cases hafid : w.sh.animationFrameId with
      | none => simp [stop, hafid]
      | some i =>
        obtain ⟨hle, hpend⟩ := h1 i hafid
        have hi0 : i ≠ 0 := by omega
        simp [stop, hafid, hi0]
    have hdes' : (dispose w.sh).1.isDestroyed = true := by
      rw [dispose_fst]
    refine ⟨?_, ?_, h3, ?_, ?_⟩
    · intro i hi
      have hi2 : (dispose w.sh).1.animationFrameId = some i := hi
      rw [hafid'] at hi2
      exact Option.noConfusion hi2
    · intro _
      exact hpend'
    · intro _
      exact hafid'
    · intro hd
      have hd2 : (dispose w.sh).1.isDestroyed = false := hd
      rw [hdes'] at hd2
      exact Bool.noConfusion hd2
  | contextLost =>
    simp only [stepSys]
    cases hafid : w.sh.animationFrameId with
    | none =>
      simp only [stop, hafid]
      exact ⟨fun i hi => absurd hi (by simp [hafid]),
        fun _ => by simpa [hostApply] using h2 hafid, h3, fun _ => hafid, h5⟩
    | some i =>
      obtain ⟨hle, hpend⟩ := h1 i hafid
      have hi0 : i ≠ 0 := by omega
      simp only [stop, hafid, if_pos hi0]
      refine ⟨?_, ?_, h3, ?_, ?_⟩
      · intro j hj
        simp at hj
      · intro _
        simp [hpend, hostApply, hostStep]
      · intro _
        rfl
      · intro hdes
        exact h5 hdes
  | tick =>
    cases hp : w.pending with
    | nil =>
      simp only [stepSys, hp]
      exact ⟨fun i hi => ⟨(h1 i hi).1, hp ▸ (h1 i hi).2⟩, fun hn => hp ▸ h2 hn, h3, h4, h5⟩
    | cons i rest =>
      have hafid : w.sh.animationFrameId = some i ∧ rest = [] := by
        cases ha : w.sh.animationFrameId with
        | none => rw [h2 ha] at hp; exact List.noConfusion hp
        | some j =>
          obtain ⟨_, hpend⟩ := h1 j ha
          rw [hpend] at hp
          obtain ⟨rfl, rfl⟩ := List.cons.injEq .. ▸ hp
          exact ⟨rfl, rfl⟩
      have hdes : w.sh.isDestroyed = false := by
        cases hd : w.sh.isDestroyed with
        | false => rfl
        | true => rw [h4 hd] at hafid; exact Option.noConfusion hafid.1
      have hprog : ¬ w.sh.program = none := by
        have := h5 hdes
        cases hpr : w.sh.program with
        | none => rw [hpr] at this; simp at this
        | some _ => simp
      have hguard : ¬ (w.sh.isDestroyed = true ∨ w.sh.program = none) := by
        rw [hdes]
        simp [hprog]
      simp only [stepSys, hp]
      rw [hafid.2]
      refine ⟨?_, ?_, Nat.le_succ_of_le h3, ?_, ?_⟩
      · intro j hj
        rw [render_fst, if_neg hguard] at hj
        simp only [Option.some.injEq] at hj
        subst hj
        rw [hostApply_render, if_neg hguard]
        exact ⟨h3, rfl⟩
      · intro hn
        rw [render_fst, if_neg hguard] at hn
        simp at hn
      · intro hd
        rw [render_fst, if_neg hguard] at hd ⊢
        simp only at hd
        rw [hdes] at hd
        exact Bool.noConfusion hd
      · intro hd
        rw [render_fst, if_neg hguard]
        simp only
        have := h5 hdes
        exact this

theorem sysInv_runSys (w : Sys) (hw : SysInv w) (evs : List Event) :
    SysInv (runSys w evs) := by
  induction evs generalizing w with
  | nil => exact hw
  | cons e evs ih => exact ih (stepSys w e) (sysInv_step w e hw)

theorem sysInv_initSys (env : Env) (opts : ShaderUpOptions) (tr : List Cmd)
    (s0 : ShaderUpState) (h : construct env opts = (tr, Except.ok s0)) :
    SysInv (initSys s0) := by
  obtain ⟨hafid, hdes, hprog, _, _⟩ := construct_ok env opts tr s0 h
  refine ⟨?_, fun _ => rfl, le_refl 1, fun _ => hafid, fun _ => hprog⟩
  intro i hi
  have hi2 : s0.animationFrameId = some i := hi
  rw [hafid] at hi2
  exact Option.noConfusion hi2

theorem stepSys_tick_nil (w : Sys) (h : w.pending = []) :
    stepSys w Event.tick = w := by
  simp [stepSys, h]

theorem iterTicks_fixed (w : Sys) (h : stepSys w Event.tick = w) :
    ∀ n, iterTicks n w = w := by
  intro n
  induction n with
  | zero => rfl
  | succ m ih => simp [iterTicks, h, ih]

theorem stepSys_stop_pending (w : Sys) (hw : SysInv w) :
    (stepSys w Event.stop).pending = [] := by
  obtain ⟨h1, h2, h3, h4, h5⟩ := hw
  simp only [stepSys]
  rw [hostApply_stop]
  cases hafid : w.sh.animationFrameId with
  | none => exact h2 hafid
  | some i =>
    obtain ⟨hle, hpend⟩ := h1 i hafid
    have hi0 : i ≠ 0 := by omega
    simp [hi0, hpend]

theorem stepSys_stop_frames (w : Sys) : (stepSys w Event.stop).frames = w.frames := rfl

theorem sysInv_pending_le_one (w : Sys) (hw : SysInv w) : w.pending.length ≤ 1 := by
  obtain ⟨h1, h2, _, _, _⟩ := hw
  cases hafid : w.sh.animationFrameId with
  | none => rw [h2 hafid]; decide
  | some i => rw [(h1 i hafid).2]; simp

/-- C1: for every options object with renderMode 'instanced', if
`numInstances` is missing or `attributes` is missing, the constructor
throws a ConfigurationError with an empty host-command trace, i.e.
before any GPU resource (buffer, shader, program, texture) is allocated;
the `Except.error` result means no (even partially constructed) instance
state exists. -/
theorem C1_instanced_config_error (env : Env) (opts : ShaderUpOptions)
    (hmode : opts.renderMode = some RenderMode.instanced)
    (hmiss : opts.numInstances = none ∨ opts.attributes = none) :
    (construct env opts).1 = [] ∧ isConfigError (construct env opts).2 = true := by
  rcases hmiss with hni | hattr
  · simp [construct, hmode, hni, falsyNum, isConfigError]
  · cases hf : falsyNum opts.numInstances with
    | true => simp [construct, hmode, hf, isConfigError]
    | false => simp [construct, hmode, hf, hattr, isConfigError]

/-- C1 witness: constructing in instanced mode without `numInstances`
fails with a ConfigurationError and an empty trace. -/
theorem C1_instanced_config_error_witness :
    (construct envW { optsW with numInstances := none }).1 = [] ∧
    isConfigError (construct envW { optsW with numInstances := none }).2 = true :=
  C1_instanced_config_error envW { optsW with numInstances := none } rfl (Or.inl rfl)

/-- C10: constructing in instanced mode with `numInstances = 0` produces
exactly the same result (the same ConfigurationError, with nothing
allocated) as omitting `numInstances` entirely, because the required-field
check `!options.numInstances` treats the falsy `0` as missing. -/
theorem C10_zero_instances_like_missing (env : Env) (opts : ShaderUpOptions)
    (hmode : opts.renderMode = some RenderMode.instanced) :
    construct env { opts with numInstances := some 0 } =
      construct env { opts with numInstances := none } ∧
    (construct env { opts with numInstances := some 0 }).1 = [] ∧
    isConfigError (construct env { opts with numInstances := some 0 }).2 = true := by
  refine ⟨?_, ?_, ?_⟩ <;> simp [construct, hmode, falsyNum, isConfigError]

/-- C10 witness at the concrete instanced options. -/
theorem C10_zero_instances_like_missing_witness :
    construct envW { optsW with numInstances := some 0 } =
      construct envW { optsW with numInstances := none } ∧
    (construct envW { optsW with numInstances := some 0 }).1 = [] ∧
    isConfigError (construct envW { optsW with numInstances := some 0 }).2 = true :=
  C10_zero_instances_like_missing envW optsW rfl

/-- C3: the byte stride of the interleaved instance buffer equals the
sum over all declared attributes, in declaration order, of component
count × 4; and every instance-attribute pointer set up by the attribute
loop carries exactly that stride, independent of which attribute names
fail to resolve against the program. -/
theorem C3_stride_is_declared_sum (attrs : List (String × AttributeOptions))
    (attribLoc : String → Int) :
    computeStride attrs = (attrs.map (fun a => a.2.size * 4)).sum ∧
    ∀ loc size stride offset,
      Cmd.vertexAttribPointer loc size stride offset ∈
        setupAttribs attribLoc attrs (computeStride attrs) 0 →
      stride = (attrs.map (fun a => a.2.size * 4)).sum := by
  have hsum : computeStride attrs = (attrs.map (fun a => a.2.size * 4)).sum := by
    rw [computeStride, foldl_size_mul]
    omega
  refine ⟨hsum, fun loc size stride offset hmem => ?_⟩
  rw [← hsum]
  exact setupAttribs_stride attribLoc attrs (computeStride attrs) 0 loc size stride offset hmem

/-- C3 witness: at the concrete two-attribute layout (4 and 2
components), with the first attribute unresolved, the emitted pointer
for the second attribute still carries stride 24 = (4+2)×4. -/
theorem C3_stride_is_declared_sum_witness :
    computeStride cexAttrs = ((cexAttrs.map (fun a => a.2.size * 4)).sum) ∧
    (24 : Nat) = ((cexAttrs.map (fun a => a.2.size * 4)).sum) :=
  ⟨(C3_stride_is_declared_sum cexAttrs cexLoc).1,
   (C3_stride_is_declared_sum cexAttrs cexLoc).2 0 2 24 0 (by decide)⟩

/-- C2 counterexample: layout `[a (4 comps), b (2 comps)]` with `a`
unresolved.  The claim says `b` keeps the offset it would have had if
`a` had resolved (16); the code instead emits `b`'s pointer with offset
0 and emits no pointer with offset 16, while with `a` resolved the
offset of `b` is 16. -/
theorem C2_claimed_offsets_counterexample :
    Cmd.vertexAttribPointer 0 2 (computeStride cexAttrs) 0 ∈
      setupAttribs cexLoc cexAttrs (computeStride cexAttrs) 0 ∧
    Cmd.vertexAttribPointer 0 2 (computeStride cexAttrs) 16 ∉
      setupAttribs cexLoc cexAttrs (computeStride cexAttrs) 0 ∧
    Cmd.vertexAttribPointer 0 2 (computeStride cexAttrs) 16 ∈
      setupAttribs cexLocAll cexAttrs (computeStride cexAttrs) 0 := by
  refine ⟨?_, ?_, ?_⟩ <;> decide

/-- C2 (amended): a skipped attribute's size does NOT participate in the
offset arithmetic — the loop's `continue` also skips the offset
increment — so each resolved attribute's byte offset equals the sum of
component count × 4 over the *resolved* attributes declared before it
(attributes after a skipped one are shifted down); the stride still
counts every declared attribute. -/
theorem C2_offsets_count_resolved_only (f : String → Int)
    (pre post : List (String × AttributeOptions)) (a : String × AttributeOptions)
    (hres : ¬ f a.1 = -1) :
    Cmd.vertexAttribPointer (f a.1) a.2.size (computeStride (pre ++ a :: post))
        (((pre.filter (fun x => f x.1 != -1)).map (fun x => x.2.size * 4)).sum) ∈
      setupAttribs f (pre ++ a :: post) (computeStride (pre ++ a :: post)) 0 := by
  have h := setupAttribs_mem_resolved f a hres pre post
    (computeStride (pre ++ a :: post)) 0
  simpa using h

/-- C2 amended witness: with `a` skipped, `b` (declared after it) is
emitted at offset 0 = sum over resolved predecessors. -/
theorem C2_offsets_count_resolved_only_witness :
    Cmd.vertexAttribPointer
        (cexLoc "b") 2
        (computeStride cexAttrs)
        ((([("a", ({ size := 4, instanced := false } : AttributeOptions))].filter
            (fun x => cexLoc x.1 != -1)).map (fun x => x.2.size * 4)).sum) ∈
      setupAttribs cexLoc cexAttrs (computeStride cexAttrs) 0 :=
  C2_offsets_count_resolved_only cexLoc
    [("a", { size := 4, instanced := false })] []
    ("b", { size := 2, instanced := false }) (by decide)

/-- C4: `dispose()` is idempotent — a second call leaves the state
unchanged — and after the first call the program, the instance buffer
and all texture handles are already null/released; after any dispose,
`start`, `setData` and `setTexture` are no-ops. -/
theorem C4_dispose_idempotent (s : ShaderUpState) :
    (dispose (dispose s).1).1 = (dispose s).1 ∧
    (dispose s).1.program = none ∧ (dispose s).1.instanceBuffer = none ∧
    (dispose s).1.textures = [] ∧ (dispose s).1.isDestroyed = true ∧
    (∀ newId, start (dispose s).1 newId = ((dispose s).1, [])) ∧
    (∀ n, setData (dispose s).1 n = ((dispose s).1, [])) ∧
    (∀ name, setTexture (dispose s).1 name = ((dispose s).1, [])) := by
  have hdes : (dispose s).1.isDestroyed = true := by rw [dispose_fst]
  have hprog : (dispose s).1.program = none := by rw [dispose_fst]
  have hib : (dispose s).1.instanceBuffer = none := by rw [dispose_fst]
  have htex : (dispose s).1.textures = [] := by rw [dispose_fst]
  have hro : (dispose s).1.resizeObserver = false := by rw [dispose_fst]
  have hafid : truthyId (dispose s).1.animationFrameId = false := by
    rw [dispose_fst]
    exact truthyId_stop_fst s
  have key : ∀ d : ShaderUpState, d.isDestroyed = true → d.resizeObserver = false →
      d.textures = [] → d.instanceBuffer = none → d.program = none →
      truthyId d.animationFrameId = false → (dispose d).1 = d := by
    intro d k1 k2 k3 k4 k5 k6
    rw [dispose_fst, stop_of_not_truthy d k6]
    cases d
    simp_all
  refine ⟨key _ hdes hro htex hib hprog hafid, hprog, hib, htex, hdes, ?_, ?_, ?_⟩
  · intro newId
    unfold start
    rw [if_neg]
    rintro ⟨-, hb⟩
    rw [hdes] at hb
    exact Bool.noConfusion hb
  · intro n
    unfold setData
    rw [if_pos (Or.inr hdes)]
  · intro name
    unfold setTexture
    rw [if_pos hdes]

/-- C6: for every declared uniform type, the value seeded into the
public value-bag at registration (when the name resolves) is the
type-appropriate zero default with the correct component count:
float → 0, vec2 → [0,0], vec3 → [0,0,0], vec4 → [0,0,0,0], int → 0,
sampler2D → null. -/
theorem C6_default_uniform_values (f : String → Option Nat)
    (decls : List (String × UniformType)) (name : String) (ty : UniformType)
    (hnd : (decls.map Prod.fst).Nodup) (hmem : (name, ty) ∈ decls)
    (hres : (f name).isSome = true) :
    lookupAssoc name (processUniforms f decls 0 [] []).2.1 =
      some (getDefaultUniformValue ty) ∧
    getDefaultUniformValue UniformType.float = UValue.num 0 ∧
    getDefaultUniformValue UniformType.vec2 = UValue.arr [0, 0] ∧
    getDefaultUniformValue UniformType.vec3 = UValue.arr [0, 0, 0] ∧
    getDefaultUniformValue UniformType.vec4 = UValue.arr [0, 0, 0, 0] ∧
    getDefaultUniformValue UniformType.int = UValue.num 0 ∧
    getDefaultUniformValue UniformType.sampler2D = UValue.null :=
  ⟨processUniforms_bag_seeded f decls name ty hnd hmem hres 0 [] [],
   rfl, rfl, rfl, rfl, rfl, rfl⟩

/-- C6 witness: `u_speed : float` at the concrete registration. -/
theorem C6_default_uniform_values_witness :
    lookupAssoc "u_speed" (processUniforms envW.uniformLoc uniformsW 0 [] []).2.1 =
      some (getDefaultUniformValue UniformType.float) ∧
    getDefaultUniformValue UniformType.float = UValue.num 0 ∧
    getDefaultUniformValue UniformType.vec2 = UValue.arr [0, 0] ∧
    getDefaultUniformValue UniformType.vec3 = UValue.arr [0, 0, 0] ∧
    getDefaultUniformValue UniformType.vec4 = UValue.arr [0, 0, 0, 0] ∧
    getDefaultUniformValue UniformType.int = UValue.num 0 ∧
    getDefaultUniformValue UniformType.sampler2D = UValue.null :=
  C6_default_uniform_values envW.uniformLoc uniformsW "u_speed" UniformType.float
    (by decide) (by decide) (by decide)

/-- C7: a resize pass whose logical display size differs from the
backing-store size updates the backing store to match, sets the
viewport to the full drawing-buffer size, and invokes the optional
resize callback exactly once with the new logical size; an unchanged
size changes nothing and invokes no callback. -/
theorem C7_resize_pass (c : Canvas) (hasCb : Bool) :
    ((c.clientWidth ≠ c.width ∨ c.clientHeight ≠ c.height) →
      (handleResize c hasCb).1.width = c.clientWidth ∧
      (handleResize c hasCb).1.height = c.clientHeight ∧
      (handleResize c hasCb).1.clientWidth = c.clientWidth ∧
      (handleResize c hasCb).1.clientHeight = c.clientHeight ∧
      (handleResize c hasCb).2 =
        Cmd.viewport 0 0 c.clientWidth c.clientHeight ::
          (if hasCb then [Cmd.resizeCallback c.clientWidth c.clientHeight] else [])) ∧
    ((c.clientWidth = c.width ∧ c.clientHeight = c.height) →
      handleResize c hasCb = (c, [])) := by
  constructor
  · intro hne
    unfold handleResize
    rw [if_pos hne]
    exact ⟨rfl, rfl, rfl, rfl, rfl⟩
  · intro heq
    unfold handleResize
    rw [if_neg]
    rintro (hw | hh)
    · exact hw heq.1
    · exact hh heq.2

/-- C7 witness: the concrete 800×600 → 400×300 resize. -/
theorem C7_resize_pass_witness :
    (handleResize canvasW true).1.width = canvasW.clientWidth ∧
    (handleResize canvasW true).1.height = canvasW.clientHeight ∧
    (handleResize canvasW true).1.clientWidth = canvasW.clientWidth ∧
    (handleResize canvasW true).1.clientHeight = canvasW.clientHeight ∧
    (handleResize canvasW true).2 =
      Cmd.viewport 0 0 canvasW.clientWidth canvasW.clientHeight ::
        (if true then [Cmd.resizeCallback canvasW.clientWidth canvasW.clientHeight]
         else []) :=
  (C7_resize_pass canvasW true).1 (Or.inl (by decide))

/-- C8: every executed frame issues exactly one draw call — a 3-vertex
non-instanced draw in fullscreen mode, a 6-vertex-per-instance
instanced draw with instance count `numInstances` otherwise — and in
instanced mode the constructed state's `numInstances` is exactly the
one given in the options. -/
theorem C8_one_draw_per_frame (s : ShaderUpState) (timeMs newId : Nat)
    (hd : s.isDestroyed = false) (hp : s.program.isSome = true) :
    ((render s timeMs newId).2.filter isDraw) =
      [if s.renderMode = RenderMode.fullscreen then Cmd.drawArrays 0 3
        else Cmd.drawArraysInstanced 0 6 s.numInstances] ∧
    (∀ (env : Env) (opts : ShaderUpOptions) (tr : List Cmd) (s0 : ShaderUpState),
      construct env opts = (tr, Except.ok s0) →
      opts.renderMode = some RenderMode.instanced →
      opts.numInstances = some s0.numInstances) := by
  constructor
  · have hguard : ¬ (s.isDestroyed = true ∨ s.program = none) := by
      rw [hd]
      cases hpr : s.program with
      | none => rw [hpr] at hp; simp at hp
      | some _ => simp
    simp only [render, if_neg hguard]
    cases htl : s.timeLocation <;> cases hrl : s.resolutionLocation <;>
      cases hrm : s.renderMode <;>
      simp [List.filter_append, customUploadCmds_no_draw, isDraw]
  · intro env opts tr s0 h hmode
    have hni := (construct_ok env opts tr s0 h).2.2.2.2
    rw [hmode] at hni
    exact hni rfl

/-- C8 witness: the constructed instanced state draws 6 vertices per
instance with instance count 3, the value given at construction. -/
theorem C8_one_draw_per_frame_witness :
    ((render okStateW 0 1).2.filter isDraw) =
      [if okStateW.renderMode = RenderMode.fullscreen then Cmd.drawArrays 0 3
        else Cmd.drawArraysInstanced 0 6 okStateW.numInstances] ∧
    optsW.numInstances = some okStateW.numInstances :=
  ⟨(C8_one_draw_per_frame okStateW 0 1 rfl rfl).1,
   (C8_one_draw_per_frame okStateW 0 1 rfl rfl).2 envW optsW
     (construct envW optsW).1 okStateW rfl rfl⟩

/-- C9: a declared uniform whose location does not resolve produces a
non-fatal warning, no registry entry and no seeded default; writing any
value to that name in the value-bag afterwards changes nothing the
per-frame upload loop emits (render output is unchanged), because that
loop iterates only the registry. -/
theorem C9_unresolved_uniform_inert (f : String → Option Nat)
    (decls : List (String × UniformType)) (name : String) (ty : UniformType)
    (hmem : (name, ty) ∈ decls) (hres : f name = none) :
    Cmd.warn (uniformWarnMsg name) ∈ (processUniforms f decls 0 [] []).2.2 ∧
    lookupAssoc name (processUniforms f decls 0 [] []).1 = none ∧
    lookupAssoc name (processUniforms f decls 0 [] []).2.1 = none ∧
    (∀ (bag : List (String × UValue)) (v : UValue),
      customUploadCmds (setAssoc name v bag) (processUniforms f decls 0 [] []).1 =
        customUploadCmds bag (processUniforms f decls 0 [] []).1) ∧
    (∀ (s : ShaderUpState) (timeMs newId : Nat) (v : UValue),
      s.uniformInfo = (processUniforms f decls 0 [] []).1 →
      (render { s with uniforms := setAssoc name v s.uniforms } timeMs newId).2 =
        (render s timeMs newId).2) := by
  have hreg : lookupAssoc name (processUniforms f decls 0 [] []).1 = none := by
    rw [processUniforms_reg_unresolved f decls name hres]
    rfl
  have hinert : ∀ (bag : List (String × UValue)) (v : UValue),
      customUploadCmds (setAssoc name v bag) (processUniforms f decls 0 [] []).1 =
        customUploadCmds bag (processUniforms f decls 0 [] []).1 :=
    fun bag v => customUploadCmds_setAssoc_not_mem bag _ name v hreg
  refine ⟨processUniforms_warn f decls name ty hres hmem 0 [] [], hreg, ?_, hinert, ?_⟩
  · rw [processUniforms_bag_unresolved f decls name hres]
    rfl
  · intro s timeMs newId v hui
    cases s with
    | mk rm ni ao cv pr af ro de ui ub tx ib tl rl orz =>
      simp only at hui
      simp only [render]
      by_cases hguard : de = true ∨ pr = none
      · rw [if_pos hguard, if_pos hguard]
      · rw [if_neg hguard, if_neg hguard]
        simp only
        rw [hui, hinert ub v]

/-- C9 witness: `u_missing : vec2` at the concrete registration. -/
theorem C9_unresolved_uniform_inert_witness :
    Cmd.warn (uniformWarnMsg "u_missing") ∈
      (processUniforms envW.uniformLoc uniformsW 0 [] []).2.2 ∧
    lookupAssoc "u_missing" (processUniforms envW.uniformLoc uniformsW 0 [] []).1 =
      none ∧
    lookupAssoc "u_missing" (processUniforms envW.uniformLoc uniformsW 0 [] []).2.1 =
      none :=
  ⟨(C9_unresolved_uniform_inert envW.uniformLoc uniformsW "u_missing" UniformType.vec2
      (by decide) (by decide)).1,
   (C9_unresolved_uniform_inert envW.uniformLoc uniformsW "u_missing" UniformType.vec2
      (by decide) (by decide)).2.1,
   (C9_unresolved_uniform_inert envW.uniformLoc uniformsW "u_missing" UniformType.vec2
      (by decide) (by decide)).2.2.1⟩

theorem stepSys_tick_pending_one (w : Sys) (hw : SysInv w) (hne : w.pending ≠ []) :
    (stepSys w Event.tick).pending = [w.nextId] := by
  obtain ⟨h1, h2, h3, h4, h5⟩ := hw
  cases ha : w.sh.animationFrameId with
  | none => exact absurd (h2 ha) hne
  | some j =>
    obtain ⟨hle, hpend⟩ := h1 j ha
    have hdes : w.sh.isDestroyed = false := by
      cases hd : w.sh.isDestroyed with
      | false => rfl
      | true => rw [h4 hd] at ha; exact Option.noConfusion ha
    have hguard : ¬ (w.sh.isDestroyed = true ∨ w.sh.program = none) := by
      rw [hdes]
      have hps := h5 hdes
      cases hpr : w.sh.program with
      | none => rw [hpr] at hps; simp at hps
      | some _ => simp
    simp only [stepSys, hpend]
    rw [hostApply_render, if_neg hguard]
    rfl

/-- C5: in every state reachable from a successful construction, at
most one animation-frame callback is pending; after `stop` the system is
a fixed point of ticks (no further frame callback executes, the frame
counter stays constant); `start` when idle and not disposed schedules
exactly one callback; and a `tick` that fires the pending callback
reschedules exactly one. -/
theorem C5_at_most_one_scheduled (env : Env) (opts : ShaderUpOptions) (tr : List Cmd)
    (s0 : ShaderUpState) (h : construct env opts = (tr, Except.ok s0))
    (evs : List Event) :
    (runSys (initSys s0) evs).pending.length ≤ 1 ∧
    (∀ n, iterTicks n (stepSys (runSys (initSys s0) evs) Event.stop) =
        stepSys (runSys (initSys s0) evs) Event.stop) ∧
    (∀ n, (iterTicks n (stepSys (runSys (initSys s0) evs) Event.stop)).frames =
        (runSys (initSys s0) evs).frames) ∧
    (truthyId (runSys (initSys s0) evs).sh.animationFrameId = false ∧
        (runSys (initSys s0) evs).sh.isDestroyed = false →
      (stepSys (runSys (initSys s0) evs) Event.start).pending =
        (runSys (initSys s0) evs).pending ++ [(runSys (initSys s0) evs).nextId]) ∧
    ((runSys (initSys s0) evs).pending ≠ [] →
      (stepSys (runSys (initSys s0) evs) Event.tick).pending.length = 1) := by
  have hinv : SysInv (runSys (initSys s0) evs) :=
    sysInv_runSys (initSys s0) (sysInv_initSys env opts tr s0 h) evs
  obtain ⟨h1, h2, h3, h4, h5⟩ := hinv
  have hstopnil : (stepSys (runSys (initSys s0) evs) Event.stop).pending = [] :=
    stepSys_stop_pending _ ⟨h1, h2, h3, h4, h5⟩
  have hfix : ∀ n, iterTicks n (stepSys (runSys (initSys s0) evs) Event.stop) =
      stepSys (runSys (initSys s0) evs) Event.stop :=
    iterTicks_fixed _ (stepSys_tick_nil _ hstopnil)
  refine ⟨sysInv_pending_le_one _ ⟨h1, h2, h3, h4, h5⟩, hfix, ?_, ?_, ?_⟩
  · intro n
    rw [hfix n, stepSys_stop_frames]
  · rintro ⟨ht, hd⟩
    have hafid := not_truthy_of_inv _ h1 ht
    simp only [stepSys, start, if_pos (And.intro ht hd)]
    simp [hostApply, hostStep]
  · intro hne
    rw [stepSys_tick_pending_one _ ⟨h1, h2, h3, h4, h5⟩ hne]
    rfl

/-- C5 witness at the concrete construction and a start/tick/stop/tick
event sequence. -/
theorem C5_at_most_one_scheduled_witness :
    (runSys (initSys okStateW)
      [Event.start, Event.tick, Event.stop, Event.tick]).pending.length ≤ 1 :=
  (C5_at_most_one_scheduled envW optsW (construct envW optsW).1 okStateW rfl
    [Event.start, Event.tick, Event.stop, Event.tick]).1

end ShaderUp
